import Mathlib

/-!
Verification of the user mutation surface of
`src/platform/api/src/api/v1/gql/mutations/user.rs`.

The five mutations (`email`, `display_name`, `display_color`, `password`,
`follow`) are embedded as pure Lean functions over an explicit database
state.  Identifiers (ULIDs) are modelled as `Nat`; the external password
hashing / verification collaborators are passed in as function parameters;
NATS publish failures and transaction aborts are modelled by an
environment oracle.  Each mutation returns an `Outcome`: the resulting
database state, the list of publish attempts made (subject and payload,
in order), and the result handed back to the GraphQL caller.
-/

/-- A row of the `users` table (the columns this module touches). -/
structure UserRow where
  id : Nat
  username : String
  display_name : String
  email : String
  email_verified : Bool
  display_color : Int
  password_hash : String
  updated_at : Nat
deriving Repr, DecidableEq

/-- A row of the `user_sessions` table. -/
structure SessionRow where
  id : Nat
  user_id : Nat
deriving Repr, DecidableEq

/-- A row of the `channel_user` table (composite key `(user_id, channel_id)`). -/
structure FollowRow where
  user_id : Nat
  channel_id : Nat
  following : Bool
deriving Repr, DecidableEq

/-- The database state the mutations read and write. -/
structure DB where
  users : List UserRow
  sessions : List SessionRow
  channel_user : List FollowRow
deriving Repr, DecidableEq

/-- `auth.session` as used by the handlers: the resolved session of the caller. -/
structure Auth where
  session : SessionRow
deriving Repr, DecidableEq

/-- The GraphQL error taxonomy reachable from these handlers. -/
inductive GqlError where
  | auth
  | notFound (entity : String)
  | invalidInput (fields : List String) (message : String)
  | publishFailure (message : String)
  | dbError
deriving Repr, DecidableEq

/-- Decoded event payloads (the protobuf messages, field for field). -/
inductive Event where
  | userDisplayName (user_id : String) (display_name : String)
  | userDisplayColor (user_id : String) (display_color : Int)
  | userFollowChannel (user_id : String) (channel_id : String) (following : Bool)
deriving Repr, DecidableEq

instance {ε α : Type} [DecidableEq ε] [DecidableEq α] : DecidableEq (Except ε α)
  | .ok a, .ok b =>
    if h : a = b then .isTrue (by rw [h]) else .isFalse (by simp [h])
  | .ok _, .error _ => .isFalse (by simp)
  | .error _, .ok _ => .isFalse (by simp)
  | .error e, .error f =>
    if h : e = f then .isTrue (by rw [h]) else .isFalse (by simp [h])

/-- Result of running one mutation: final database, publish attempts
(subject, payload) in order, and the value or error returned. -/
structure Outcome (α : Type) where
  db : DB
  published : List (String × Event)
  result : Except GqlError α
deriving Repr, DecidableEq

/-- Failure oracle for the non-deterministic effects: which NATS subjects
fail to publish, and whether the password transaction aborts before commit. -/
structure Env where
  publishFails : String → Bool
  txFails : Bool

/-- Rust `str::to_lowercase` as used by the display-name check, modelled
per character over the string's character list. -/
def lowerStr (s : String) : String := ⟨s.data.map Char.toLower⟩

/-- `SELECT ... WHERE id = uid` via the user-by-id loader. -/
def DB.findUser (db : DB) (uid : Nat) : Option UserRow :=
  db.users.find? (fun u => u.id == uid)

/-- `UPDATE users SET ... WHERE p RETURNING *`: the new table contents and
the updated rows returned to the client. -/
def updateReturning (users : List UserRow) (p : UserRow → Bool)
    (f : UserRow → UserRow) : List UserRow × List UserRow :=
  (users.map (fun u => if p u then f u else u), (users.filter p).map f)

/-- `UPSERT INTO channel_user(user_id, channel_id, following)`: overwrite the
`following` flag of the keyed row if present, insert the row otherwise. -/
def upsertFollow (rows : List FollowRow) (uid cid : Nat) (fl : Bool) :
    List FollowRow :=
  if rows.any (fun r => r.user_id == uid && r.channel_id == cid) then
    rows.map (fun r =>
      if r.user_id == uid && r.channel_id == cid then { r with following := fl } else r)
  else
    rows ++ [⟨uid, cid, fl⟩]

/-- The `email` mutation: on an authenticated caller, one
`UPDATE users SET email = $1, email_verified = false, updated_at = NOW()
WHERE id = $2 RETURNING *`, no event published. -/
def emailMutation (auth : Option Auth) (email : String) (now : Nat)
    (db : DB) : Outcome UserRow :=
  match auth with
  | none => ⟨db, [], .error .auth⟩
  | some a =>
    let (users', returned) := updateReturning db.users
      (fun u => u.id == a.session.user_id)
      (fun u => { u with email := email, email_verified := false, updated_at := now })
    match returned.head? with
    | none => ⟨db, [], .error .dbError⟩
    | some row => ⟨{ db with users := users' }, [], .ok row⟩

/-- The `display_name` mutation: load the caller's user, reject on a
case-insensitive mismatch with the username, else
`UPDATE ... WHERE id = $2 AND username = $3 RETURNING *` and publish one
`UserDisplayName` event on `user.<id>.display_name`. -/
def displayNameMutation (env : Env) (auth : Option Auth)
    (display_name : String) (now : Nat) (db : DB) : Outcome UserRow :=
  match auth with
  | none => ⟨db, [], .error .auth⟩
  | some a =>
    match db.findUser a.session.user_id with
    | none => ⟨db, [], .error (.notFound "user")⟩
    | some user =>
      if lowerStr user.username != lowerStr display_name then
        ⟨db, [], .error (.invalidInput ["displayName"]
          "Display name must match username case")⟩
      else
        let (users', returned) := updateReturning db.users
          (fun u => u.id == a.session.user_id && u.username == user.username)
          (fun u => { u with display_name := display_name, updated_at := now })
        match returned.head? with
        | none => ⟨db, [], .error .dbError⟩
        | some row =>
          let db' := { db with users := users' }
          let user_id := toString row.id
          let subject := "user." ++ user_id ++ ".display_name"
          let pub := [(subject, Event.userDisplayName user_id display_name)]
          if env.publishFails subject then
            ⟨db', pub, .error (.publishFailure "Failed to publish message")⟩
          else
            ⟨db', pub, .ok row⟩

/-- The `display_color` mutation: one
`UPDATE users SET display_color = $1, updated_at = NOW() WHERE id = $2
RETURNING *`, then publish one `UserDisplayColor` event on
`user.<id>.display_color`. -/
def displayColorMutation (env : Env) (auth : Option Auth) (color : Int)
    (now : Nat) (db : DB) : Outcome UserRow :=
  match auth with
  | none => ⟨db, [], .error .auth⟩
  | some a =>
    let (users', returned) := updateReturning db.users
      (fun u => u.id == a.session.user_id)
      (fun u => { u with display_color := color, updated_at := now })
    match returned.head? with
    | none => ⟨db, [], .error .dbError⟩
    | some row =>
      let db' := { db with users := users' }
      let user_id := toString row.id
      let subject := "user." ++ user_id ++ ".display_color"
      let pub := [(subject, Event.userDisplayColor user_id color)]
      if env.publishFails subject then
        ⟨db', pub, .error (.publishFailure "failed to publish message")⟩
      else
        ⟨db', pub, .ok row⟩

/-- The `password` mutation: load the caller's user, verify
`current_password` against the stored hash via the external collaborator
`verify`, then in one transaction
`UPDATE users SET password_hash = $1 WHERE id = $2 RETURNING *` and
`DELETE FROM user_sessions WHERE user_id = $1 AND id != $2`; the whole
transaction rolls back (database unchanged) if it aborts before commit.
No event is published. -/
def passwordMutation (env : Env) (hash : String → String)
    (verify : String → String → Bool) (auth : Option Auth)
    (current_password new_password : String) (db : DB) : Outcome UserRow :=
  match auth with
  | none => ⟨db, [], .error .auth⟩
  | some a =>
    match db.findUser a.session.user_id with
    | none => ⟨db, [], .error (.notFound "user")⟩
    | some user =>
      if !verify user.password_hash current_password then
        ⟨db, [], .error (.invalidInput ["password"] "wrong password")⟩
      else if env.txFails then
        ⟨db, [], .error .dbError⟩
      else
        let (users', returned) := updateReturning db.users
          (fun u => u.id == user.id)
          (fun u => { u with password_hash := hash new_password })
        match returned.head? with
        | none => ⟨db, [], .error .dbError⟩
        | some row =>
          let sessions' := db.sessions.filter
            (fun s => !(s.user_id == user.id && s.id != a.session.id))
          ⟨{ db with users := users', sessions := sessions' }, [], .ok row⟩

/-- The `follow` mutation: reject following oneself, upsert the
`(user_id, channel_id)` row with the requested flag, then publish the same
`UserFollowChannel` payload on `user.<user_id>.follows` and, if that
succeeded, on `channel.<channel_id>.follows`. -/
def followMutation (env : Env) (auth : Option Auth) (channel_id : Nat)
    (follow : Bool) (db : DB) : Outcome Bool :=
  match auth with
  | none => ⟨db, [], .error .auth⟩
  | some a =>
    if a.session.user_id == channel_id then
      ⟨db, [], .error (.invalidInput ["channelId"] "Cannot follow yourself")⟩
    else
      let cu := upsertFollow db.channel_user a.session.user_id channel_id follow
      let db' := { db with channel_user := cu }
      let user_id := toString a.session.user_id
      let channel_id_s := toString channel_id
      let user_subject := "user." ++ user_id ++ ".follows"
      let channel_subject := "channel." ++ channel_id_s ++ ".follows"
      let msg := Event.userFollowChannel user_id channel_id_s follow
      if env.publishFails user_subject then
        ⟨db', [(user_subject, msg)],
          .error (.publishFailure "failed to publish message")⟩
      else if env.publishFails channel_subject then
        ⟨db', [(user_subject, msg), (channel_subject, msg)],
          .error (.publishFailure "failed to publish message")⟩
      else
        ⟨db', [(user_subject, msg), (channel_subject, msg)], .ok follow⟩

lemma displayName_ok_inv (env : Env) (a : Auth) (dn : String) (now : Nat)
    (db : DB) (row : UserRow)
    (hok : (displayNameMutation env (some a) dn now db).result = .ok row) :
    ∃ user, db.findUser a.session.user_id = some user ∧
      lowerStr user.username = lowerStr dn ∧
      ((db.users.filter (fun u => u.id == a.session.user_id && u.username == user.username)).map
        (fun u => { u with display_name := dn, updated_at := now })).head? = some row ∧
      env.publishFails ("user." ++ toString row.id ++ ".display_name") = false ∧
      displayNameMutation env (some a) dn now db =
        ⟨{ db with users := db.users.map (fun u =>
             if u.id == a.session.user_id && u.username == user.username
             then { u with display_name := dn, updated_at := now } else u) },
         [("user." ++ toString row.id ++ ".display_name",
            Event.userDisplayName (toString row.id) dn)],
         .ok row⟩ := by
  simp only [displayNameMutation, updateReturning] at hok ⊢
  cases hfind : db.findUser a.session.user_id with
  | none => rw [hfind] at hok; simp at hok
  | some user =>
    rw [hfind] at hok
    by_cases hcase : lowerStr user.username = lowerStr dn
    · simp only [hcase, bne_self_eq_false, Bool.false_eq_true, if_false] at hok
      split at hok
      · simp at hok
      · next row' hhead =>
        split at hok
        · simp at hok
        · next hpub =>
          obtain rfl : row' = row := by simpa using hok
          refine ⟨user, rfl, hcase, hhead, ?_, ?_⟩
          · simpa using hpub
          · simp [hcase, hhead, hpub]
    · simp [bne_iff_ne, hcase] at hok

lemma displayName_eq (env : Env) (a : Auth) (dn : String) (now : Nat) (db : DB)
    (user row : UserRow)
    (hfind : db.findUser a.session.user_id = some user)
    (hcase : lowerStr user.username = lowerStr dn)
    (hhead : ((db.users.filter (fun u => u.id == a.session.user_id && u.username == user.username)).map
        (fun u => { u with display_name := dn, updated_at := now })).head? = some row) :
    displayNameMutation env (some a) dn now db =
      ⟨{ db with users := db.users.map (fun u =>
           if u.id == a.session.user_id && u.username == user.username
           then { u with display_name := dn, updated_at := now } else u) },
       [("user." ++ toString row.id ++ ".display_name", Event.userDisplayName (toString row.id) dn)],
       if env.publishFails ("user." ++ toString row.id ++ ".display_name")
       then .error (.publishFailure "Failed to publish message") else .ok row⟩ := by
  simp only [displayNameMutation, updateReturning, hfind, hcase, bne_self_eq_false,
    Bool.false_eq_true, if_false, hhead]
  split <;> simp_all

lemma email_ok_inv (a : Auth) (e : String) (now : Nat) (db : DB) (row : UserRow)
    (hok : (emailMutation (some a) e now db).result = .ok row) :
    ((db.users.filter (fun u => u.id == a.session.user_id)).map
      (fun u => { u with email := e, email_verified := false, updated_at := now })).head?
      = some row := by
  simp only [emailMutation, updateReturning] at hok
  split at hok
  · simp at hok
  · next row' hhead =>
    obtain rfl : row' = row := by simpa using hok
    exact hhead

lemma email_eq (a : Auth) (e : String) (now : Nat) (db : DB) (row : UserRow)
    (hhead : ((db.users.filter (fun u => u.id == a.session.user_id)).map
      (fun u => { u with email := e, email_verified := false, updated_at := now })).head?
      = some row) :
    emailMutation (some a) e now db =
      ⟨{ db with users := db.users.map (fun u =>
           if u.id == a.session.user_id
           then { u with email := e, email_verified := false, updated_at := now } else u) },
       [], .ok row⟩ := by
  simp [emailMutation, updateReturning, hhead]

lemma displayColor_ok_inv (env : Env) (a : Auth) (c : Int) (now : Nat)
    (db : DB) (row : UserRow)
    (hok : (displayColorMutation env (some a) c now db).result = .ok row) :
    ((db.users.filter (fun u => u.id == a.session.user_id)).map
      (fun u => { u with display_color := c, updated_at := now })).head? = some row ∧
    env.publishFails ("user." ++ toString row.id ++ ".display_color") = false := by
  simp only [displayColorMutation, updateReturning] at hok
  split at hok
  · simp at hok
  · next row' hhead =>
    split at hok
    · simp at hok
    · next hpub =>
      obtain rfl : row' = row := by simpa using hok
      exact ⟨hhead, by simpa using hpub⟩

lemma displayColor_eq (env : Env) (a : Auth) (c : Int) (now : Nat) (db : DB)
    (row : UserRow)
    (hhead : ((db.users.filter (fun u => u.id == a.session.user_id)).map
      (fun u => { u with display_color := c, updated_at := now })).head? = some row) :
    displayColorMutation env (some a) c now db =
      ⟨{ db with users := db.users.map (fun u =>
           if u.id == a.session.user_id
           then { u with display_color := c, updated_at := now } else u) },
       [("user." ++ toString row.id ++ ".display_color",
          Event.userDisplayColor (toString row.id) c)],
       if env.publishFails ("user." ++ toString row.id ++ ".display_color")
       then .error (.publishFailure "failed to publish message") else .ok row⟩ := by
  simp only [displayColorMutation, updateReturning, hhead]
  split <;> simp_all

lemma password_ok_inv (env : Env) (hash : String → String)
    (verify : String → String → Bool) (a : Auth) (cur new : String)
    (db : DB) (row : UserRow)
    (hok : (passwordMutation env hash verify (some a) cur new db).result = .ok row) :
    ∃ user, db.findUser a.session.user_id = some user ∧
      verify user.password_hash cur = true ∧
      env.txFails = false ∧
      ((db.users.filter (fun u => u.id == user.id)).map
        (fun u => { u with password_hash := hash new })).head? = some row := by
  simp only [passwordMutation, updateReturning] at hok
  cases hfind : db.findUser a.session.user_id with
  | none => rw [hfind] at hok; simp at hok
  | some user =>
    rw [hfind] at hok
    by_cases hverify : verify user.password_hash cur = true
    · simp only [hverify, Bool.not_true, Bool.false_eq_true, if_false] at hok
      by_cases htx : env.txFails = true
      · simp [htx] at hok
      · rw [if_neg htx] at hok
        split at hok
        · simp at hok
        · next row' hhead =>
          obtain rfl : row' = row := by simpa using hok
          exact ⟨user, rfl, hverify, by simpa using htx, hhead⟩
    · simp [hverify] at hok

lemma password_eq (env : Env) (hash : String → String)
    (verify : String → String → Bool) (a : Auth) (cur new : String)
    (db : DB) (user row : UserRow)
    (hfind : db.findUser a.session.user_id = some user)
    (hverify : verify user.password_hash cur = true)
    (htx : env.txFails = false)
    (hhead : ((db.users.filter (fun u => u.id == user.id)).map
        (fun u => { u with password_hash := hash new })).head? = some row) :
    passwordMutation env hash verify (some a) cur new db =
      ⟨{ db with
           users := db.users.map (fun u =>
             if u.id == user.id then { u with password_hash := hash new } else u),
           sessions := db.sessions.filter
             (fun s => !(s.user_id == user.id && s.id != a.session.id)) },
       [], .ok row⟩ := by
  simp [passwordMutation, updateReturning, hfind, hverify, htx, hhead]

lemma follow_ok_inv (env : Env) (a : Auth) (cid : Nat) (fl b : Bool) (db : DB)
    (hok : (followMutation env (some a) cid fl db).result = .ok b) :
    a.session.user_id ≠ cid ∧ b = fl ∧
    env.publishFails ("user." ++ toString a.session.user_id ++ ".follows") = false ∧
    env.publishFails ("channel." ++ toString cid ++ ".follows") = false ∧
    followMutation env (some a) cid fl db =
      ⟨{ db with channel_user := upsertFollow db.channel_user a.session.user_id cid fl },
       [("user." ++ toString a.session.user_id ++ ".follows",
          Event.userFollowChannel (toString a.session.user_id) (toString cid) fl),
        ("channel." ++ toString cid ++ ".follows",
          Event.userFollowChannel (toString a.session.user_id) (toString cid) fl)],
       .ok fl⟩ := by
  by_cases hself : a.session.user_id = cid
  · simp [followMutation, hself] at hok
  · by_cases hpub1 : env.publishFails ("user." ++ toString a.session.user_id ++ ".follows") = true
    · simp [followMutation, hself, hpub1] at hok
    · by_cases hpub2 : env.publishFails ("channel." ++ toString cid ++ ".follows") = true
      · simp [followMutation, hself, hpub1, hpub2] at hok
      · refine ⟨hself, ?_, by simpa using hpub1, by simpa using hpub2, ?_⟩
        · simpa [followMutation, hself, hpub1, hpub2] using hok.symm
        · simp [followMutation, hself, hpub1, hpub2]

/-- C6 (amended): a display-name change whose new name lower-cased differs
from the current username lower-cased returns an `InvalidInput` failure on
field `displayName` with message "Display name must match username case",
leaves the whole database unchanged and publishes no event. -/
theorem C6_display_name_case_mismatch
    (env : Env) (a : Auth) (user : UserRow) (dn : String) (now : Nat) (db : DB)
    (hfind : db.findUser a.session.user_id = some user)
    (hmismatch : lowerStr user.username ≠ lowerStr dn) :
    displayNameMutation env (some a) dn now db =
      ⟨db, [], .error (.invalidInput ["displayName"]
        "Display name must match username case")⟩ := by
  simp [displayNameMutation, hfind, bne_iff_ne, hmismatch]

theorem C6_witness :
    displayNameMutation ⟨fun _ => false, false⟩ (some ⟨⟨100, 1⟩⟩) "Bob" 7
        ⟨[⟨1, "Alice", "Alice", "a@example.com", true, 5, "h", 0⟩], [], []⟩ =
      ⟨⟨[⟨1, "Alice", "Alice", "a@example.com", true, 5, "h", 0⟩], [], []⟩, [],
        .error (.invalidInput ["displayName"]
          "Display name must match username case")⟩ :=
  C6_display_name_case_mismatch ⟨fun _ => false, false⟩ ⟨⟨100, 1⟩⟩
    ⟨1, "Alice", "Alice", "a@example.com", true, 5, "h", 0⟩ "Bob" 7
    ⟨[⟨1, "Alice", "Alice", "a@example.com", true, 5, "h", 0⟩], [], []⟩
    (by decide) (by decide)

/-- C6, counterexample to the claim as stated: the failure message of the
case-mismatch rejection is "Display name must match username case", not
"case mismatch". -/
theorem C6_counterexample :
    (displayNameMutation ⟨fun _ => false, false⟩ (some ⟨⟨100, 1⟩⟩) "Bob" 7
        ⟨[⟨1, "Alice", "Alice", "a@example.com", true, 5, "h", 0⟩], [], []⟩).result =
      .error (.invalidInput ["displayName"] "Display name must match username case") ∧
    GqlError.invalidInput ["displayName"] "Display name must match username case" ≠
      GqlError.invalidInput ["displayName"] "case mismatch" := by
  constructor
  · decide
  · decide

/-- C7: a password change whose current password does not verify against the
loaded password hash returns an `InvalidInput` failure on field `password`
with message "wrong password", leaving the database (hash and sessions)
unchanged and publishing nothing. -/
theorem C7_wrong_password_rejected
    (env : Env) (hash : String → String) (verify : String → String → Bool)
    (a : Auth) (user : UserRow) (cur new : String) (db : DB)
    (hfind : db.findUser a.session.user_id = some user)
    (hverify : verify user.password_hash cur = false) :
    passwordMutation env hash verify (some a) cur new db =
      ⟨db, [], .error (.invalidInput ["password"] "wrong password")⟩ := by
  simp [passwordMutation, hfind, hverify]

theorem C7_witness :
    passwordMutation ⟨fun _ => false, false⟩ (fun s => "H" ++ s)
        (fun h p => h == "H" ++ p) (some ⟨⟨100, 1⟩⟩) "bad" "new"
        ⟨[⟨1, "Alice", "Alice", "a@example.com", true, 5, "Hpw", 0⟩],
         [⟨100, 1⟩, ⟨101, 1⟩], []⟩ =
      ⟨⟨[⟨1, "Alice", "Alice", "a@example.com", true, 5, "Hpw", 0⟩],
        [⟨100, 1⟩, ⟨101, 1⟩], []⟩, [],
        .error (.invalidInput ["password"] "wrong password")⟩ :=
  C7_wrong_password_rejected ⟨fun _ => false, false⟩ (fun s => "H" ++ s)
    (fun h p => h == "H" ++ p) ⟨⟨100, 1⟩⟩
    ⟨1, "Alice", "Alice", "a@example.com", true, 5, "Hpw", 0⟩ "bad" "new"
    ⟨[⟨1, "Alice", "Alice", "a@example.com", true, 5, "Hpw", 0⟩],
     [⟨100, 1⟩, ⟨101, 1⟩], []⟩
    (by decide) (by decide)

lemma head?_map_filter {p : UserRow → Bool} {f : UserRow → UserRow}
    {l : List UserRow} {row : UserRow}
    (h : ((l.filter p).map f).head? = some row) :
    ∃ r, r ∈ l ∧ p r = true ∧ row = f r := by
  cases hl : l.filter p with
  | nil => rw [hl] at h; simp at h
  | cons r t =>
    rw [hl] at h
    simp only [List.map_cons, List.head?_cons, Option.some.injEq] at h
    have hr : r ∈ l.filter p := by rw [hl]; exact List.mem_cons_self r t
    have hm := List.mem_filter.mp hr
    exact ⟨r, hm.1, hm.2, h.symm⟩

/-- C9: a successful email change returns a row with the caller's id, the new
email, `email_verified` forced to false and `updated_at` stamped; that row is
stored; rows of other users, sessions and follow relations are untouched; no
event is published. -/
theorem C9_email_change (a : Auth) (e : String) (now : Nat) (db : DB) (row : UserRow)
    (hok : (emailMutation (some a) e now db).result = .ok row) :
    row.id = a.session.user_id ∧ row.email = e ∧ row.email_verified = false ∧
    row.updated_at = now ∧
    row ∈ (emailMutation (some a) e now db).db.users ∧
    (∀ u ∈ db.users, u.id ≠ a.session.user_id →
      u ∈ (emailMutation (some a) e now db).db.users) ∧
    (emailMutation (some a) e now db).db.sessions = db.sessions ∧
    (emailMutation (some a) e now db).db.channel_user = db.channel_user ∧
    (emailMutation (some a) e now db).published = [] := by
  have hhead := email_ok_inv a e now db row hok
  obtain ⟨r, hrmem, hp, hrow⟩ := head?_map_filter hhead
  have hid : r.id = a.session.user_id := by simpa using hp
  rw [email_eq a e now db row hhead]
  subst hrow
  refine ⟨by simp [hid], rfl, rfl, rfl, ?_, ?_, rfl, rfl, rfl⟩
  · exact List.mem_map.mpr ⟨r, hrmem, by simp [hp]⟩
  · intro u hu hne
    exact List.mem_map.mpr ⟨u, hu, by simp [hne]⟩

theorem C9_witness :
    let out := emailMutation (some ⟨⟨100, 1⟩⟩) "new@example.com" 7
      ⟨[⟨1, "Alice", "Alice", "a@example.com", true, 5, "h", 0⟩], [⟨100, 1⟩], []⟩
    let row : UserRow := ⟨1, "Alice", "Alice", "new@example.com", false, 5, "h", 7⟩
    row.id = 1 ∧ row.email = "new@example.com" ∧ row.email_verified = false ∧
    row.updated_at = 7 ∧ row ∈ out.db.users ∧
    (∀ u ∈ (⟨[⟨1, "Alice", "Alice", "a@example.com", true, 5, "h", 0⟩],
        [⟨100, 1⟩], []⟩ : DB).users, u.id ≠ 1 → u ∈ out.db.users) ∧
    out.db.sessions = [⟨100, 1⟩] ∧ out.db.channel_user = [] ∧ out.published = [] :=
  C9_email_change ⟨⟨100, 1⟩⟩ "new@example.com" 7
    ⟨[⟨1, "Alice", "Alice", "a@example.com", true, 5, "h", 0⟩], [⟨100, 1⟩], []⟩
    ⟨1, "Alice", "Alice", "new@example.com", false, 5, "h", 7⟩ (by decide)

/-- C2 (amended): after the follow upsert is committed, the user-scoped
publish is attempted first; the channel-scoped publish is attempted only if
the user-scoped one succeeds, and a user-scoped publish failure makes the
mutation return a publish error with the channel-scoped publish never
attempted (while the committed upsert stays in place). -/
theorem C2_follow_publish_short_circuit
    (env : Env) (a : Auth) (cid : Nat) (fl : Bool) (db : DB)
    (hself : a.session.user_id ≠ cid) :
    ((followMutation env (some a) cid fl db).db.channel_user =
      upsertFollow db.channel_user a.session.user_id cid fl) ∧
    (env.publishFails ("user." ++ toString a.session.user_id ++ ".follows") = false →
      (followMutation env (some a) cid fl db).published.map Prod.fst =
        ["user." ++ toString a.session.user_id ++ ".follows",
         "channel." ++ toString cid ++ ".follows"]) ∧
    (env.publishFails ("user." ++ toString a.session.user_id ++ ".follows") = true →
      (followMutation env (some a) cid fl db).published.map Prod.fst =
        ["user." ++ toString a.session.user_id ++ ".follows"] ∧
      (followMutation env (some a) cid fl db).result =
        .error (.publishFailure "failed to publish message")) := by
  by_cases hpub1 : env.publishFails ("user." ++ toString a.session.user_id ++ ".follows") = true
  · refine ⟨?_, ?_, ?_⟩
    · simp [followMutation, hself, hpub1]
    · intro h; rw [h] at hpub1; simp at hpub1
    · intro _; constructor <;> simp [followMutation, hself, hpub1]
  · by_cases hpub2 : env.publishFails ("channel." ++ toString cid ++ ".follows") = true
    · refine ⟨?_, ?_, ?_⟩
      · simp [followMutation, hself, hpub1, hpub2]
      · intro _; simp [followMutation, hself, hpub1, hpub2]
      · intro h; exact absurd h hpub1
    · refine ⟨?_, ?_, ?_⟩
      · simp [followMutation, hself, hpub1, hpub2]
      · intro _; simp [followMutation, hself, hpub1, hpub2]
      · intro h; exact absurd h hpub1

theorem C2_witness :
    ((followMutation ⟨fun _ => false, false⟩ (some ⟨⟨100, 1⟩⟩) 2 true
        ⟨[], [], []⟩).db.channel_user = upsertFollow [] 1 2 true) ∧
    ((⟨fun _ => false, false⟩ : Env).publishFails "user.1.follows" = false →
      (followMutation ⟨fun _ => false, false⟩ (some ⟨⟨100, 1⟩⟩) 2 true
          ⟨[], [], []⟩).published.map Prod.fst =
        ["user.1.follows", "channel.2.follows"]) ∧
    ((⟨fun _ => false, false⟩ : Env).publishFails "user.1.follows" = true →
      (followMutation ⟨fun _ => false, false⟩ (some ⟨⟨100, 1⟩⟩) 2 true
          ⟨[], [], []⟩).published.map Prod.fst = ["user.1.follows"] ∧
      (followMutation ⟨fun _ => false, false⟩ (some ⟨⟨100, 1⟩⟩) 2 true
          ⟨[], [], []⟩).result = .error (.publishFailure "failed to publish message")) := by
  have h := C2_follow_publish_short_circuit ⟨fun _ => false, false⟩ ⟨⟨100, 1⟩⟩ 2 true
    ⟨[], [], []⟩ (by decide)
  simpa using h

/-- C2, counterexample to the claim as stated: with the user-scoped publish
failing, the follow write commits (the relation row is stored) but the
channel-scoped publish is never attempted — only one publish attempt is made. -/
theorem C2_counterexample :
    (followMutation ⟨fun s => s == "user.1.follows", false⟩ (some ⟨⟨100, 1⟩⟩) 2 true
      ⟨[], [], []⟩).db.channel_user = [⟨1, 2, true⟩] ∧
    (followMutation ⟨fun s => s == "user.1.follows", false⟩ (some ⟨⟨100, 1⟩⟩) 2 true
      ⟨[], [], []⟩).published.map Prod.fst = ["user.1.follows"] ∧
    "channel.2.follows" ∉
      (followMutation ⟨fun s => s == "user.1.follows", false⟩ (some ⟨⟨100, 1⟩⟩) 2 true
        ⟨[], [], []⟩).published.map Prod.fst := by
  refine ⟨by decide, by decide, by decide⟩

/-- C3 (amended): the display-name, display-color and follow mutations, on
success, publish at least one event on a subject derived from the entity
identity and the event kind; the email and password mutations never publish
any event. -/
theorem C3_events_per_mutation (env : Env) (a : Auth) (db : DB) :
    (∀ e now, (emailMutation (some a) e now db).published = []) ∧
    (∀ hash verify cur new,
      (passwordMutation env hash verify (some a) cur new db).published = []) ∧
    (∀ dn now row, (displayNameMutation env (some a) dn now db).result = .ok row →
      (displayNameMutation env (some a) dn now db).published =
        [("user." ++ toString row.id ++ ".display_name",
           Event.userDisplayName (toString row.id) dn)]) ∧
    (∀ c now row, (displayColorMutation env (some a) c now db).result = .ok row →
      (displayColorMutation env (some a) c now db).published =
        [("user." ++ toString row.id ++ ".display_color",
           Event.userDisplayColor (toString row.id) c)]) ∧
    (∀ cid fl b, (followMutation env (some a) cid fl db).result = .ok b →
      (followMutation env (some a) cid fl db).published =
        [("user." ++ toString a.session.user_id ++ ".follows",
           Event.userFollowChannel (toString a.session.user_id) (toString cid) fl),
         ("channel." ++ toString cid ++ ".follows",
           Event.userFollowChannel (toString a.session.user_id) (toString cid) fl)]) := by
  refine ⟨?_, ?_, ?_, ?_, ?_⟩
  · intro e now
    simp only [emailMutation, updateReturning]
    split <;> rfl
  · intro hash verify cur new
    simp only [passwordMutation, updateReturning]
    cases db.findUser a.session.user_id with
    | none => rfl
    | some user =>
      by_cases hv : verify user.password_hash cur = true
      · simp only [hv, Bool.not_true, Bool.false_eq_true, if_false]
        by_cases htx : env.txFails = true
        · simp [htx]
        · rw [if_neg htx]
          split <;> rfl
      · simp [hv]
  · intro dn now row hok
    obtain ⟨user, hfind, hcase, hhead, hpub, heq⟩ :=
      displayName_ok_inv env a dn now db row hok
    rw [heq]
  · intro c now row hok
    obtain ⟨hhead, hpub⟩ := displayColor_ok_inv env a c now db row hok
    rw [displayColor_eq env a c now db row hhead]
  · intro cid fl b hok
    obtain ⟨hself, rfl, hpub1, hpub2, heq⟩ := follow_ok_inv env a cid fl b db hok
    rw [heq]

theorem C3_witness :
    ((emailMutation (some ⟨⟨100, 1⟩⟩) "new@example.com" 7
      ⟨[⟨1, "Alice", "Alice", "a@example.com", true, 5, "h", 0⟩], [], []⟩).published = []) ∧
    ((displayNameMutation ⟨fun _ => false, false⟩ (some ⟨⟨100, 1⟩⟩) "alice" 7
        ⟨[⟨1, "Alice", "Alice", "a@example.com", true, 5, "h", 0⟩], [], []⟩).result =
        .ok ⟨1, "Alice", "alice", "a@example.com", true, 5, "h", 7⟩ →
      (displayNameMutation ⟨fun _ => false, false⟩ (some ⟨⟨100, 1⟩⟩) "alice" 7
        ⟨[⟨1, "Alice", "Alice", "a@example.com", true, 5, "h", 0⟩], [], []⟩).published =
        [("user.1.display_name", Event.userDisplayName "1" "alice")]) := by
  have h := C3_events_per_mutation ⟨fun _ => false, false⟩ ⟨⟨100, 1⟩⟩
    ⟨[⟨1, "Alice", "Alice", "a@example.com", true, 5, "h", 0⟩], [], []⟩
  exact ⟨h.1 "new@example.com" 7, by
    intro hr
    have := h.2.2.1 "alice" 7 ⟨1, "Alice", "alice", "a@example.com", true, 5, "h", 7⟩ hr
    simpa using this⟩

/-- C3, counterexample to the claim as stated: a successful email change and a
successful password change both publish zero events. -/
theorem C3_counterexample :
    (emailMutation (some ⟨⟨100, 1⟩⟩) "new@example.com" 7
      ⟨[⟨1, "Alice", "Alice", "a@example.com", true, 5, "h", 0⟩], [], []⟩).result =
      .ok ⟨1, "Alice", "Alice", "new@example.com", false, 5, "h", 7⟩ ∧
    (emailMutation (some ⟨⟨100, 1⟩⟩) "new@example.com" 7
      ⟨[⟨1, "Alice", "Alice", "a@example.com", true, 5, "h", 0⟩], [], []⟩).published = [] ∧
    (passwordMutation ⟨fun _ => false, false⟩ (fun s => "H" ++ s)
      (fun h p => h == "H" ++ p) (some ⟨⟨100, 1⟩⟩) "pw" "new"
      ⟨[⟨1, "Alice", "Alice", "a@example.com", true, 5, "Hpw", 0⟩], [⟨100, 1⟩], []⟩).result =
      .ok ⟨1, "Alice", "Alice", "a@example.com", true, 5, "Hnew", 0⟩ ∧
    (passwordMutation ⟨fun _ => false, false⟩ (fun s => "H" ++ s)
      (fun h p => h == "H" ++ p) (some ⟨⟨100, 1⟩⟩) "pw" "new"
      ⟨[⟨1, "Alice", "Alice", "a@example.com", true, 5, "Hpw", 0⟩], [⟨100, 1⟩], []⟩).published
      = [] := by
  refine ⟨by decide, by decide, by decide, by decide⟩

lemma follow_db (env : Env) (a : Auth) (cid : Nat) (fl : Bool) (db : DB)
    (hself : a.session.user_id ≠ cid) :
    (followMutation env (some a) cid fl db).db =
      { db with channel_user :=
          upsertFollow db.channel_user a.session.user_id cid fl } := by
  by_cases hpub1 : env.publishFails ("user." ++ toString a.session.user_id ++ ".follows") = true
  · simp [followMutation, hself, hpub1]
  · by_cases hpub2 : env.publishFails ("channel." ++ toString cid ++ ".follows") = true
    · simp [followMutation, hself, hpub1, hpub2]
    · simp [followMutation, hself, hpub1, hpub2]

/-- C1: for each mutation that publishes an event (display name, display
color, follow), whenever the database write commits — witnessed by the run
under a first environment succeeding — the run under any second environment
ends in the same committed database state, and whichever of its publishes
fails (the single publish of display name / display color; for follow either
the user-scoped publish, or the channel-scoped publish after the user-scoped
one succeeded) makes the mutation return a publish error to the caller while
that committed state is kept: no rollback or compensation. -/
theorem C1_publish_failure_no_rollback
    (env₁ env₂ : Env) (a : Auth) (db : DB) :
    (∀ dn now row, (displayNameMutation env₁ (some a) dn now db).result = .ok row →
      (displayNameMutation env₂ (some a) dn now db).db =
        (displayNameMutation env₁ (some a) dn now db).db ∧
      (env₂.publishFails ("user." ++ toString row.id ++ ".display_name") = true →
        (displayNameMutation env₂ (some a) dn now db).result =
          .error (.publishFailure "Failed to publish message"))) ∧
    (∀ c now row, (displayColorMutation env₁ (some a) c now db).result = .ok row →
      (displayColorMutation env₂ (some a) c now db).db =
        (displayColorMutation env₁ (some a) c now db).db ∧
      (env₂.publishFails ("user." ++ toString row.id ++ ".display_color") = true →
        (displayColorMutation env₂ (some a) c now db).result =
          .error (.publishFailure "failed to publish message"))) ∧
    (∀ cid fl b, (followMutation env₁ (some a) cid fl db).result = .ok b →
      (followMutation env₂ (some a) cid fl db).db =
        (followMutation env₁ (some a) cid fl db).db ∧
      (env₂.publishFails ("user." ++ toString a.session.user_id ++ ".follows") = true →
        (followMutation env₂ (some a) cid fl db).result =
          .error (.publishFailure "failed to publish message")) ∧
      (env₂.publishFails ("user." ++ toString a.session.user_id ++ ".follows") = false →
        env₂.publishFails ("channel." ++ toString cid ++ ".follows") = true →
        (followMutation env₂ (some a) cid fl db).result =
          .error (.publishFailure "failed to publish message"))) := by
  refine ⟨?_, ?_, ?_⟩
  · intro dn now row hok
    obtain ⟨user, hfind, hcase, hhead, hpub, heq⟩ :=
      displayName_ok_inv env₁ a dn now db row hok
    rw [heq, displayName_eq env₂ a dn now db user row hfind hcase hhead]
    refine ⟨rfl, ?_⟩
    intro h₂
    simp [h₂]
  · intro c now row hok
    obtain ⟨hhead, hpub⟩ := displayColor_ok_inv env₁ a c now db row hok
    rw [displayColor_eq env₁ a c now db row hhead,
      displayColor_eq env₂ a c now db row hhead]
    refine ⟨by simp [hpub], ?_⟩
    intro h₂
    simp [h₂]
  · intro cid fl b hok
    obtain ⟨hself, hb, hpub1, hpub2, heq⟩ := follow_ok_inv env₁ a cid fl b db hok
    refine ⟨?_, ?_, ?_⟩
    · rw [heq, follow_db env₂ a cid fl db hself]
    · intro h₂
      simp [followMutation, hself, h₂]
    · intro h₂u h₂c
      simp [followMutation, hself, h₂u, h₂c]

theorem C1_witness :
    ((followMutation ⟨fun s => s == "channel.2.follows", false⟩ (some ⟨⟨100, 1⟩⟩) 2 true
        ⟨[], [], []⟩).db =
      (followMutation ⟨fun _ => false, false⟩ (some ⟨⟨100, 1⟩⟩) 2 true
        ⟨[], [], []⟩).db) ∧
    ((followMutation ⟨fun s => s == "channel.2.follows", false⟩ (some ⟨⟨100, 1⟩⟩) 2 true
        ⟨[], [], []⟩).result = .error (.publishFailure "failed to publish message")) := by
  have h := C1_publish_failure_no_rollback ⟨fun _ => false, false⟩
    ⟨fun s => s == "channel.2.follows", false⟩ ⟨⟨100, 1⟩⟩ ⟨[], [], []⟩
  have h3 := h.2.2 2 true true (by decide)
  exact ⟨h3.1, h3.2.2 (by decide) (by decide)⟩

/-- C5: after every successful display-name change, every stored row with the
caller's id (in particular the affected user, ids being unique) has
`display_name` lower-cased equal to `username` lower-cased; the returned row
satisfies the same invariant. -/
theorem C5_display_name_invariant
    (env : Env) (a : Auth) (dn : String) (now : Nat) (db : DB) (row : UserRow)
    (hnodup : (db.users.map (fun u => u.id)).Nodup)
    (hok : (displayNameMutation env (some a) dn now db).result = .ok row) :
    lowerStr row.display_name = lowerStr row.username ∧
    ∀ r ∈ (displayNameMutation env (some a) dn now db).db.users,
      r.id = a.session.user_id → lowerStr r.display_name = lowerStr r.username := by
  obtain ⟨user, hfind, hcase, hhead, hpub, heq⟩ :=
    displayName_ok_inv env a dn now db row hok
  have huser_mem : user ∈ db.users := List.mem_of_find?_eq_some hfind
  have huser_id : user.id = a.session.user_id := by
    simpa using List.find?_some hfind
  obtain ⟨r0, hr0mem, hp0, hrow⟩ := head?_map_filter hhead
  simp only [Bool.and_eq_true, beq_iff_eq] at hp0
  constructor
  · subst hrow
    show lowerStr dn = lowerStr r0.username
    rw [hp0.2, ← hcase]
  · rw [heq]
    intro r hr hrid
    simp only [List.mem_map] at hr
    obtain ⟨u, hu, hgu⟩ := hr
    by_cases hp : (u.id == a.session.user_id && u.username == user.username) = true
    · rw [if_pos hp] at hgu
      subst hgu
      simp only [Bool.and_eq_true, beq_iff_eq] at hp
      show lowerStr dn = lowerStr u.username
      rw [hp.2, ← hcase]
    · rw [if_neg hp] at hgu
      subst hgu
      have hu_eq : u = user :=
        List.inj_on_of_nodup_map hnodup hu huser_mem (by rw [hrid, huser_id])
      subst hu_eq
      exact absurd (by simp [huser_id]) hp

theorem C5_witness :
    ((([⟨1, "Alice", "Alice", "a@example.com", true, 5, "h", 0⟩] :
        List UserRow).map (fun u => u.id)).Nodup) ∧
    (lowerStr (⟨1, "Alice", "alice", "a@example.com", true, 5, "h", 7⟩ :
        UserRow).display_name =
      lowerStr (⟨1, "Alice", "alice", "a@example.com", true, 5, "h", 7⟩ :
        UserRow).username ∧
    ∀ r ∈ (displayNameMutation ⟨fun _ => false, false⟩ (some ⟨⟨100, 1⟩⟩) "alice" 7
        ⟨[⟨1, "Alice", "Alice", "a@example.com", true, 5, "h", 0⟩], [], []⟩).db.users,
      r.id = 1 → lowerStr r.display_name = lowerStr r.username) :=
  ⟨by decide, C5_display_name_invariant ⟨fun _ => false, false⟩ ⟨⟨100, 1⟩⟩ "alice" 7
    ⟨[⟨1, "Alice", "Alice", "a@example.com", true, 5, "h", 0⟩], [], []⟩
    ⟨1, "Alice", "alice", "a@example.com", true, 5, "h", 7⟩ (by decide) (by decide)⟩

/-- C4: with a correct current password, the password change (when the
transaction commits) stores the hash of the new password for the caller's
user, returns the updated row, and deletes exactly the caller's other
sessions — every surviving session of that user is the requesting one and
every session that is not the caller's other session survives; when the
transaction aborts before commit, the database is entirely unchanged and the
caller sees an error. -/
theorem C4_password_change
    (env : Env) (hash : String → String) (verify : String → String → Bool)
    (a : Auth) (user : UserRow) (cur new : String) (db : DB)
    (hfind : db.findUser a.session.user_id = some user)
    (hverify : verify user.password_hash cur = true) :
    (env.txFails = false →
      (∃ row, (passwordMutation env hash verify (some a) cur new db).result = .ok row) ∧
      (passwordMutation env hash verify (some a) cur new db).db.findUser
          a.session.user_id = some { user with password_hash := hash new } ∧
      (∀ s ∈ (passwordMutation env hash verify (some a) cur new db).db.sessions,
        s.user_id = user.id → s.id = a.session.id) ∧
      (∀ s ∈ db.sessions, (s.user_id = user.id → s.id = a.session.id) →
        s ∈ (passwordMutation env hash verify (some a) cur new db).db.sessions)) ∧
    (env.txFails = true →
      (passwordMutation env hash verify (some a) cur new db).db = db ∧
      (passwordMutation env hash verify (some a) cur new db).result =
        .error .dbError) := by
  constructor
  · intro htx
    have humem : user ∈ db.users := List.mem_of_find?_eq_some hfind
    have hmemf : user ∈ db.users.filter (fun u => u.id == user.id) :=
      List.mem_filter.mpr ⟨humem, by simp⟩
    obtain ⟨row, hhead⟩ : ∃ row,
        ((db.users.filter (fun u => u.id == user.id)).map
          (fun u => { u with password_hash := hash new })).head? = some row := by
      cases hl : db.users.filter (fun u => u.id == user.id) with
      | nil => rw [hl] at hmemf; simp at hmemf
      | cons x t =>
        refine ⟨{ x with password_hash := hash new }, ?_⟩
        rfl
    rw [password_eq env hash verify a cur new db user row hfind hverify htx hhead]
    refine ⟨⟨row, rfl⟩, ?_, ?_, ?_⟩
    · show (db.users.map fun u =>
          if u.id == user.id then { u with password_hash := hash new } else u).find?
          (fun u => u.id == a.session.user_id) = _
      rw [List.find?_map]
      have hcomp : ((fun u : UserRow => u.id == a.session.user_id) ∘ fun u =>
          if u.id == user.id then { u with password_hash := hash new } else u) =
          (fun u : UserRow => u.id == a.session.user_id) := by
        funext u
        simp only [Function.comp]
        by_cases h : u.id = user.id
        · simp [h]
        · simp [h]
      rw [hcomp]
      have : db.users.find? (fun u => u.id == a.session.user_id) = some user := hfind
      rw [this]
      simp
    · intro s hs hsu
      obtain ⟨hs_mem, hq⟩ := List.mem_filter.mp hs
      by_contra hne
      have hb : (s.user_id == user.id && s.id != a.session.id) = true := by
        simp [hsu, hne]
      rw [hb] at hq
      simp at hq
    · intro s hs hkeep
      refine List.mem_filter.mpr ⟨hs, ?_⟩
      by_cases hsu : s.user_id = user.id
      · have hid := hkeep hsu
        simp [hsu, hid]
      · simp [hsu]
  · intro htx
    constructor <;> simp [passwordMutation, hfind, hverify, htx]

lemma follow_channel_user (env : Env) (a : Auth) (cid : Nat) (fl : Bool) (db : DB)
    (hself : a.session.user_id ≠ cid) :
    (followMutation env (some a) cid fl db).db.channel_user =
      upsertFollow db.channel_user a.session.user_id cid fl := by
  by_cases hpub1 : env.publishFails ("user." ++ toString a.session.user_id ++ ".follows") = true
  · simp [followMutation, hself, hpub1]
  · by_cases hpub2 : env.publishFails ("channel." ++ toString cid ++ ".follows") = true
    · simp [followMutation, hself, hpub1, hpub2]
    · simp [followMutation, hself, hpub1, hpub2]

lemma upsertFollow_filter (rows : List FollowRow) (uid cid : Nat) (fl : Bool)
    (h : (rows.filter (fun r => r.user_id == uid && r.channel_id == cid)).length ≤ 1) :
    (upsertFollow rows uid cid fl).filter
        (fun r => r.user_id == uid && r.channel_id == cid) = [⟨uid, cid, fl⟩] := by
  unfold upsertFollow
  by_cases hany : rows.any (fun r => r.user_id == uid && r.channel_id == cid) = true
  · rw [if_pos hany, List.filter_map]
    have hcomp : ((fun r : FollowRow => r.user_id == uid && r.channel_id == cid) ∘
        fun r => if r.user_id == uid && r.channel_id == cid
          then { r with following := fl } else r) =
        (fun r : FollowRow => r.user_id == uid && r.channel_id == cid) := by
      funext r
      simp only [Function.comp]
      by_cases hr : (r.user_id == uid && r.channel_id == cid) = true
      · simp only [hr, if_true]
      · simp [hr]
    rw [hcomp]
    obtain ⟨x, hx, hpx⟩ := List.any_eq_true.mp hany
    have hxf : x ∈ rows.filter (fun r => r.user_id == uid && r.channel_id == cid) :=
      List.mem_filter.mpr ⟨hx, hpx⟩
    have hlen1 : (rows.filter (fun r => r.user_id == uid && r.channel_id == cid)).length = 1 := by
      have hpos := List.length_pos.mpr (List.ne_nil_of_mem hxf)
      omega
    obtain ⟨y, hy⟩ := List.length_eq_one.mp hlen1
    rw [hy]
    have hyf : y ∈ rows.filter (fun r => r.user_id == uid && r.channel_id == cid) := by
      rw [hy]; exact List.mem_cons_self y []
    have hpy := (List.mem_filter.mp hyf).2
    simp only [Bool.and_eq_true, beq_iff_eq] at hpy
    simp only [List.map_cons, List.map_nil]
    rw [if_pos (by simp [hpy.1, hpy.2])]
    cases y
    simp at hpy ⊢
    exact ⟨hpy.1, hpy.2⟩
  · rw [if_neg hany, List.filter_append]
    have hnil : rows.filter (fun r => r.user_id == uid && r.channel_id == cid) = [] := by
      rw [List.filter_eq_nil_iff]
      intro r hr hp
      exact hany (List.any_eq_true.mpr ⟨r, hr, hp⟩)
    rw [hnil]
    simp

/-- C8: `setFollow(C, true)` twice in a row (C not the caller) leaves exactly
one `(user, C)` relation row, carrying `following = true`; each of the two
calls, when it succeeds, attempted both publishes, user-scoped first and
channel-scoped second. -/
theorem C8_follow_idempotent
    (env₁ env₂ : Env) (a : Auth) (cid : Nat) (db : DB)
    (hself : a.session.user_id ≠ cid)
    (hkey : (db.channel_user.filter
        (fun r => r.user_id == a.session.user_id && r.channel_id == cid)).length ≤ 1) :
    ((followMutation env₂ (some a) cid true
        (followMutation env₁ (some a) cid true db).db).db.channel_user.filter
        (fun r => r.user_id == a.session.user_id && r.channel_id == cid)) =
      [⟨a.session.user_id, cid, true⟩] ∧
    (∀ b, (followMutation env₁ (some a) cid true db).result = .ok b →
      (followMutation env₁ (some a) cid true db).published.map Prod.fst =
        ["user." ++ toString a.session.user_id ++ ".follows",
         "channel." ++ toString cid ++ ".follows"]) ∧
    (∀ b, (followMutation env₂ (some a) cid true
        (followMutation env₁ (some a) cid true db).db).result = .ok b →
      (followMutation env₂ (some a) cid true
          (followMutation env₁ (some a) cid true db).db).published.map Prod.fst =
        ["user." ++ toString a.session.user_id ++ ".follows",
         "channel." ++ toString cid ++ ".follows"]) := by
  refine ⟨?_, ?_, ?_⟩
  · rw [follow_channel_user env₂ a cid true _ hself,
      follow_channel_user env₁ a cid true db hself]
    have k1 := upsertFollow_filter db.channel_user a.session.user_id cid true hkey
    exact upsertFollow_filter _ _ _ _ (by rw [k1]; simp)
  · intro b hok
    obtain ⟨_, rfl, _, _, heq⟩ := follow_ok_inv env₁ a cid true b db hok
    rw [heq]
    rfl
  · intro b hok
    obtain ⟨_, rfl, _, _, heq⟩ :=
      follow_ok_inv env₂ a cid true b (followMutation env₁ (some a) cid true db).db hok
    rw [heq]
    rfl

/-- C10: the password-change write touches only `password_hash` — every other
column of every user row, `updated_at` included, is identical before and
after — whereas successful email, display-name and display-color changes all
stamp `updated_at` with the write time. -/
theorem C10_password_frame
    (env : Env) (hash : String → String) (verify : String → String → Bool)
    (a : Auth) (cur new : String) (db : DB) (row : UserRow)
    (hok : (passwordMutation env hash verify (some a) cur new db).result = .ok row) :
    List.Forall₂ (fun u v : UserRow => v.id = u.id ∧ v.username = u.username ∧
        v.display_name = u.display_name ∧ v.email = u.email ∧
        v.email_verified = u.email_verified ∧ v.display_color = u.display_color ∧
        v.updated_at = u.updated_at)
      db.users (passwordMutation env hash verify (some a) cur new db).db.users ∧
    (∀ e now row', (emailMutation (some a) e now db).result = .ok row' →
      row'.updated_at = now) ∧
    (∀ dn now row', (displayNameMutation env (some a) dn now db).result = .ok row' →
      row'.updated_at = now) ∧
    (∀ c now row', (displayColorMutation env (some a) c now db).result = .ok row' →
      row'.updated_at = now) := by
  obtain ⟨user, hfind, hverify, htx, hhead⟩ :=
    password_ok_inv env hash verify a cur new db row hok
  refine ⟨?_, ?_, ?_, ?_⟩
  · rw [password_eq env hash verify a cur new db user row hfind hverify htx hhead]
    rw [List.forall₂_map_right_iff, List.forall₂_same]
    intro u hu
    by_cases h : (u.id == user.id) = true
    · simp [h]
    · simp [h]
  · intro e now row' hok'
    obtain ⟨r, _, _, hrow⟩ := head?_map_filter (email_ok_inv a e now db row' hok')
    subst hrow
    rfl
  · intro dn now row' hok'
    obtain ⟨user', hfind', hcase', hhead', hpub', heq'⟩ :=
      displayName_ok_inv env a dn now db row' hok'
    obtain ⟨r, _, _, hrow⟩ := head?_map_filter hhead'
    subst hrow
    rfl
  · intro c now row' hok'
    obtain ⟨hhead', hpub'⟩ := displayColor_ok_inv env a c now db row' hok'
    obtain ⟨r, _, _, hrow⟩ := head?_map_filter hhead'
    subst hrow
    rfl

theorem C4_witness :
    (∃ row, (passwordMutation ⟨fun _ => false, false⟩ (fun s => "H" ++ s)
      (fun h p => h == "H" ++ p) (some ⟨⟨100, 1⟩⟩) "pw" "new"
      ⟨[⟨1, "Alice", "Alice", "a@example.com", true, 5, "Hpw", 0⟩],
       [⟨100, 1⟩, ⟨101, 1⟩, ⟨102, 2⟩], []⟩).result = .ok row) ∧
    (passwordMutation ⟨fun _ => false, false⟩ (fun s => "H" ++ s)
      (fun h p => h == "H" ++ p) (some ⟨⟨100, 1⟩⟩) "pw" "new"
      ⟨[⟨1, "Alice", "Alice", "a@example.com", true, 5, "Hpw", 0⟩],
       [⟨100, 1⟩, ⟨101, 1⟩, ⟨102, 2⟩], []⟩).db.findUser 1 =
      some ⟨1, "Alice", "Alice", "a@example.com", true, 5, "Hnew", 0⟩ ∧
    (∀ s ∈ (passwordMutation ⟨fun _ => false, false⟩ (fun s => "H" ++ s)
        (fun h p => h == "H" ++ p) (some ⟨⟨100, 1⟩⟩) "pw" "new"
        ⟨[⟨1, "Alice", "Alice", "a@example.com", true, 5, "Hpw", 0⟩],
         [⟨100, 1⟩, ⟨101, 1⟩, ⟨102, 2⟩], []⟩).db.sessions,
      s.user_id = 1 → s.id = 100) := by
  have h := C4_password_change ⟨fun _ => false, false⟩ (fun s => "H" ++ s)
    (fun h p => h == "H" ++ p) ⟨⟨100, 1⟩⟩
    ⟨1, "Alice", "Alice", "a@example.com", true, 5, "Hpw", 0⟩ "pw" "new"
    ⟨[⟨1, "Alice", "Alice", "a@example.com", true, 5, "Hpw", 0⟩],
     [⟨100, 1⟩, ⟨101, 1⟩, ⟨102, 2⟩], []⟩ (by decide) (by decide)
  have h1 := h.1 rfl
  exact ⟨h1.1, h1.2.1, h1.2.2.1⟩

theorem C8_witness :
    ((followMutation ⟨fun _ => false, false⟩ (some ⟨⟨100, 1⟩⟩) 2 true
        (followMutation ⟨fun _ => false, false⟩ (some ⟨⟨100, 1⟩⟩) 2 true
          ⟨[], [], []⟩).db).db.channel_user.filter
        (fun r => r.user_id == 1 && r.channel_id == 2)) = [⟨1, 2, true⟩] ∧
    (∀ b, (followMutation ⟨fun _ => false, false⟩ (some ⟨⟨100, 1⟩⟩) 2 true
        ⟨[], [], []⟩).result = .ok b →
      (followMutation ⟨fun _ => false, false⟩ (some ⟨⟨100, 1⟩⟩) 2 true
        ⟨[], [], []⟩).published.map Prod.fst = ["user.1.follows", "channel.2.follows"]) := by
  have h := C8_follow_idempotent ⟨fun _ => false, false⟩ ⟨fun _ => false, false⟩
    ⟨⟨100, 1⟩⟩ 2 ⟨[], [], []⟩ (by decide) (by decide)
  refine ⟨h.1, ?_⟩
  intro b hb
  simpa using h.2.1 b hb

theorem C10_witness :
    List.Forall₂ (fun u v : UserRow => v.id = u.id ∧ v.username = u.username ∧
        v.display_name = u.display_name ∧ v.email = u.email ∧
        v.email_verified = u.email_verified ∧ v.display_color = u.display_color ∧
        v.updated_at = u.updated_at)
      [⟨1, "Alice", "Alice", "a@example.com", true, 5, "Hpw", 3⟩]
      (passwordMutation ⟨fun _ => false, false⟩ (fun s => "H" ++ s)
        (fun h p => h == "H" ++ p) (some ⟨⟨100, 1⟩⟩) "pw" "new"
        ⟨[⟨1, "Alice", "Alice", "a@example.com", true, 5, "Hpw", 3⟩],
         [⟨100, 1⟩], []⟩).db.users ∧
    (⟨1, "Alice", "Alice", "new@example.com", false, 5, "Hpw", 7⟩ :
      UserRow).updated_at = 7 := by
  have h := C10_password_frame ⟨fun _ => false, false⟩ (fun s => "H" ++ s)
    (fun h p => h == "H" ++ p) ⟨⟨100, 1⟩⟩ "pw" "new"
    ⟨[⟨1, "Alice", "Alice", "a@example.com", true, 5, "Hpw", 3⟩], [⟨100, 1⟩], []⟩
    ⟨1, "Alice", "Alice", "a@example.com", true, 5, "Hnew", 3⟩ (by decide)
  refine ⟨h.1, ?_⟩
  exact h.2.1 "new@example.com" 7
    ⟨1, "Alice", "Alice", "new@example.com", false, 5, "Hpw", 7⟩ (by decide)
